import Mathlib

/-!
Shallow embedding of `src/fractrade_executor/executor.py` (fractrade-executor).

The embedding models the action dispatcher `handle_action`, the three
handlers `handle_hyperliquid_perp_trade`, `handle_set_hyperliquid_perp_stop_loss`
and `handle_set_hyperliquid_perp_take_profit`, and the configuration-check
prelude of `_connect` together with `start`.

Python scalar values appearing in action configs are modelled by `PyVal`
(None, bool, number, string); container values never flow into the fields
the handlers read, so they are omitted.  Numbers are modelled exactly by
`Dec`, a decimal `mant / 10 ^ exp` — every JSON numeral and every numeric
string the configs carry denotes such a decimal, and no claim involves
binary floating-point rounding.  `Dec.toRat` gives the rational value a
`Dec` denotes.  Exceptions are modelled by `Except PyExn`; each
`try/except` of the source appears as an explicit `match` on the fallible
sub-computation.  Calls made to the HyperLiquid adapter are recorded in a
trace (`List AdapterCall`) so that "the adapter method is (never) called"
is observable.
-/

namespace FractradeExec

/-- Exact decimal number `mant / 10 ^ exp`, the value class of JSON
numerals and of the numeric strings the configs carry. -/
structure Dec where
  mant : ℤ
  exp : ℕ
deriving DecidableEq, Repr

/-- Rational value a decimal denotes. -/
def Dec.toRat (d : Dec) : ℚ := (d.mant : ℚ) / (10 : ℚ) ^ d.exp

/-- A decimal is zero exactly when its mantissa is. -/
def Dec.isZero (d : Dec) : Bool := d.mant == 0

/-- Negated decimal. -/
def Dec.neg (d : Dec) : Dec := ⟨-d.mant, d.exp⟩

/-- Zeroness of a decimal matches zeroness of its rational value. -/
theorem Dec.isZero_iff_toRat (d : Dec) : d.isZero = true ↔ d.toRat = 0 := by
  constructor
  · intro h
    have hm : d.mant = 0 := by simpa [Dec.isZero] using h
    simp [Dec.toRat, hm]
  · intro h
    have : (d.mant : ℚ) = 0 := by
      have hpow : (10 : ℚ) ^ d.exp ≠ 0 := pow_ne_zero _ (by norm_num)
      field_simp [Dec.toRat] at h
      exact_mod_cast h
    simp [Dec.isZero]
    exact_mod_cast this

/-- Python scalar value as it can appear in a JSON-decoded action config. -/
inductive PyVal where
  | none
  | bool (b : Bool)
  | num  (d : Dec)
  | str  (s : String)
deriving DecidableEq, Repr

/-- Python exception kinds raised by the modelled operations. -/
inductive PyExn where
  | typeError
  | valueError
  | attributeError
  | adapterFailure
deriving DecidableEq, Repr

/-- Python truthiness (`if not x`) of a scalar value. -/
def truthy : PyVal → Bool
  | .none => false
  | .bool b => b
  | .num d => !d.isZero
  | .str s => decide (s ≠ "")

/-- Numeric value of a digit string, most significant digit first. -/
def digitsVal (cs : List Char) : ℕ :=
  cs.foldl (fun acc c => 10 * acc + (c.toNat - '0'.toNat)) 0

/-- Decimal numeral without sign: digits, optionally with one decimal point
(`"45000"`, `"0.01"`, `".5"`, `"5."`).  This is the decimal fragment of
Python `float(str)`; exponent forms and `inf`/`nan` are outside the inputs
the repository's configs use. -/
def parseUnsignedDecimal (cs : List Char) : Option Dec :=
  match cs.span (·.isDigit) with
  | (intPart, []) =>
      if intPart.isEmpty then Option.none
      else some ⟨(digitsVal intPart : ℤ), 0⟩
  | (intPart, '.' :: fracPart) =>
      if fracPart.all (·.isDigit) && !(intPart.isEmpty && fracPart.isEmpty) then
        some ⟨(digitsVal intPart * 10 ^ fracPart.length + digitsVal fracPart : ℕ), fracPart.length⟩
      else Option.none
  | _ => Option.none

/-- Decimal numeral with optional sign. -/
def parseSignedDecimal (cs : List Char) : Option Dec :=
  match cs with
  | '+' :: rest => parseUnsignedDecimal rest
  | '-' :: rest => (parseUnsignedDecimal rest).map Dec.neg
  | _ => parseUnsignedDecimal cs

/-- Surrounding whitespace is ignored by Python `float(str)`. -/
def stripSpaces (cs : List Char) : List Char :=
  ((cs.dropWhile (·.isWhitespace)).reverse.dropWhile (·.isWhitespace)).reverse

/-- Value of a decimal-numeral string, as Python `float(str)` reads it. -/
def parseDecimal (s : String) : Option Dec :=
  parseSignedDecimal (stripSpaces s.toList)

/-- Python `float(x)`: numbers pass through, booleans become 0/1, decimal
strings are parsed, anything else raises. -/
def pyFloat : PyVal → Except PyExn Dec
  | .num d => .ok d
  | .bool b => .ok (if b then ⟨1, 0⟩ else ⟨0, 0⟩)
  | .str s =>
      match parseDecimal s with
      | some d => .ok d
      | Option.none => .error .valueError
  | .none => .error .typeError

/-- ASCII upper-casing of a string, character by character (Python
`str.upper()` on the ASCII identifiers the configs carry). -/
def strUpper (s : String) : String := String.mk (s.toList.map Char.toUpper)

/-- ASCII lower-casing of a string, character by character (Python
`str.lower()` on the ASCII identifiers the messages carry). -/
def strLower (s : String) : String := String.mk (s.toList.map Char.toLower)

/-- Python `x.upper()`: defined on strings, raises AttributeError otherwise. -/
def pyUpper : PyVal → Except PyExn String
  | .str s => .ok (strUpper s)
  | _ => .error .attributeError

/-- Python `x.lower()`: defined on strings, raises AttributeError otherwise. -/
def pyLower : PyVal → Except PyExn String
  | .str s => .ok (strLower s)
  | _ => .error .attributeError

/-- One call made against the HyperLiquid client adapter, with the argument
values the executor passes (`symbol` is forwarded unconverted, `size` and
`trigger_price` after `float(...)`, `side` after `.upper()`). -/
inductive AdapterCall where
  | executePerpTrade (symbol : PyVal) (size : Dec) (side : String) (reduceOnly : PyVal)
  | setStopLoss (symbol : PyVal) (size : Dec) (triggerPrice : Dec) (side : String)
  | setTakeProfit (symbol : PyVal) (size : Dec) (triggerPrice : Dec) (side : String)
deriving DecidableEq, Repr

instance {ε α : Type} [DecidableEq ε] [DecidableEq α] : DecidableEq (Except ε α) := fun x y =>
  match x, y with
  | .ok a, .ok b =>
    if h : a = b then isTrue (by rw [h])
    else isFalse (fun hh => h (Except.ok.inj hh))
  | .ok _, .error _ => isFalse (fun h => Except.noConfusion h)
  | .error _, .ok _ => isFalse (fun h => Except.noConfusion h)
  | .error a, .error b =>
    if h : a = b then isTrue (by rw [h])
    else isFalse (fun hh => h (Except.error.inj hh))

/-- The HyperLiquid client adapter, abstracted by its authentication state
and the outcome each of its trade methods would produce when called. -/
structure Adapter where
  is_authenticated : Bool
  execute_perp_trade_result : Except PyExn Unit
  set_stop_loss_result : Except PyExn Unit
  set_take_profit_result : Except PyExn Unit
deriving DecidableEq, Repr

/-- Fields the handlers read from `config["position"]`; a field absent from
the dict is `Option.none` (then `dict.get` supplies the Python default). -/
structure Position where
  symbol : Option PyVal
  size : Option PyVal
  side : Option PyVal
  reduce_only : Option PyVal
  trigger_price : Option PyVal
deriving DecidableEq, Repr

/-- Empty position dict (`config.get("position", {})` default). -/
def Position.empty : Position :=
  ⟨Option.none, Option.none, Option.none, Option.none, Option.none⟩

/-- Field the trade handler reads from `config["metadata"]`. -/
structure Metadata where
  server_execution : Option PyVal
deriving DecidableEq, Repr

/-- Empty metadata dict (`config.get("metadata", {})` default). -/
def Metadata.empty : Metadata := ⟨Option.none⟩

/-- Trade/stop/take-profit config as the handlers read it. -/
structure Config where
  position : Position
  metadata : Metadata
deriving DecidableEq, Repr

/-- Empty config dict (`action_data.get("config", {})` default). -/
def Config.empty : Config := ⟨Position.empty, Metadata.empty⟩

/-- Body of `handle_hyperliquid_perp_trade` inside its outer `try`
(executor.py lines 196-281): read and convert the fields, validate, then
execute only when `server_execution` is falsy and the client is
authenticated.  The adapter call sits in an inner `try` whose `except`
returns `False`, so an adapter failure is swallowed here; a `float`/`upper`
failure escapes as `.error` for the outer `except`. -/
def tradeBody (client : Adapter) (config : Config) : List AdapterCall × Except PyExn Bool :=
  match pyFloat (config.position.size.getD (PyVal.num ⟨0, 0⟩)),
        pyUpper (config.position.side.getD (PyVal.str "")) with
  | .error e, _ => ([], .error e)
  | .ok _, .error e => ([], .error e)
  | .ok size, .ok side =>
    if truthy (config.position.symbol.getD PyVal.none) = false then ([], .ok false)
    else if size.isZero then ([], .ok false)
    else if side = "" then ([], .ok false)
    else if truthy (config.metadata.server_execution.getD (PyVal.bool false)) = false
            ∧ client.is_authenticated = true then
      match client.execute_perp_trade_result with
      | .ok _ =>
          ([AdapterCall.executePerpTrade (config.position.symbol.getD PyVal.none) size side
              (config.position.reduce_only.getD (PyVal.bool false))], .ok true)
      | .error _ =>
          ([AdapterCall.executePerpTrade (config.position.symbol.getD PyVal.none) size side
              (config.position.reduce_only.getD (PyVal.bool false))], .ok false)
    else ([], .ok false)

/-- The handler `handle_hyperliquid_perp_trade` (executor.py lines 185-285):
`None` client returns `False`; otherwise run the body, the outer `except`
turning any escaped exception into `False`.  Result: the adapter calls made
and the returned boolean. -/
def handle_hyperliquid_perp_trade (hl_client : Option Adapter) (config : Config) :
    List AdapterCall × Bool :=
  match hl_client with
  | Option.none => ([], false)
  | some client =>
    match tradeBody client config with
    | (calls, .ok b) => (calls, b)
    | (calls, .error _) => (calls, false)

/-- Body of `handle_set_hyperliquid_perp_stop_loss` inside its `try`
(executor.py lines 298-318): convert, validate the four fields, then call
`set_stop_loss` unconditionally.  There is no inner `try`: an adapter
failure escapes as `.error` (after the call was made) for the outer
`except`. -/
def stopLossBody (client : Adapter) (config : Config) : List AdapterCall × Except PyExn Bool :=
  match pyFloat (config.position.size.getD (PyVal.num ⟨0, 0⟩)),
        pyFloat (config.position.trigger_price.getD (PyVal.num ⟨0, 0⟩)),
        pyUpper (config.position.side.getD (PyVal.str "")) with
  | .error e, _, _ => ([], .error e)
  | .ok _, .error e, _ => ([], .error e)
  | .ok _, .ok _, .error e => ([], .error e)
  | .ok size, .ok trigger_price, .ok side =>
    if truthy (config.position.symbol.getD PyVal.none) = false ∨ size.isZero = true
        ∨ trigger_price.isZero = true ∨ side = "" then ([], .ok false)
    else
      match client.set_stop_loss_result with
      | .ok _ =>
          ([AdapterCall.setStopLoss (config.position.symbol.getD PyVal.none) size trigger_price side],
            .ok true)
      | .error e =>
          ([AdapterCall.setStopLoss (config.position.symbol.getD PyVal.none) size trigger_price side],
            .error e)

/-- The handler `handle_set_hyperliquid_perp_stop_loss`
(executor.py lines 287-322). -/
def handle_set_hyperliquid_perp_stop_loss (hl_client : Option Adapter) (config : Config) :
    List AdapterCall × Bool :=
  match hl_client with
  | Option.none => ([], false)
  | some client =>
    match stopLossBody client config with
    | (calls, .ok b) => (calls, b)
    | (calls, .error _) => (calls, false)

/-- Body of `handle_set_hyperliquid_perp_take_profit` inside its `try`
(executor.py lines 335-355), mirror image of the stop-loss body. -/
def takeProfitBody (client : Adapter) (config : Config) : List AdapterCall × Except PyExn Bool :=
  match pyFloat (config.position.size.getD (PyVal.num ⟨0, 0⟩)),
        pyFloat (config.position.trigger_price.getD (PyVal.num ⟨0, 0⟩)),
        pyUpper (config.position.side.getD (PyVal.str "")) with
  | .error e, _, _ => ([], .error e)
  | .ok _, .error e, _ => ([], .error e)
  | .ok _, .ok _, .error e => ([], .error e)
  | .ok size, .ok trigger_price, .ok side =>
    if truthy (config.position.symbol.getD PyVal.none) = false ∨ size.isZero = true
        ∨ trigger_price.isZero = true ∨ side = "" then ([], .ok false)
    else
      match client.set_take_profit_result with
      | .ok _ =>
          ([AdapterCall.setTakeProfit (config.position.symbol.getD PyVal.none) size trigger_price side],
            .ok true)
      | .error e =>
          ([AdapterCall.setTakeProfit (config.position.symbol.getD PyVal.none) size trigger_price side],
            .error e)

/-- The handler `handle_set_hyperliquid_perp_take_profit`
(executor.py lines 324-359). -/
def handle_set_hyperliquid_perp_take_profit (hl_client : Option Adapter) (config : Config) :
    List AdapterCall × Bool :=
  match hl_client with
  | Option.none => ([], false)
  | some client =>
    match takeProfitBody client config with
    | (calls, .ok b) => (calls, b)
    | (calls, .error _) => (calls, false)

/-- Which overridable handler `handle_action` invoked, if any. -/
inductive HandlerId where
  | trade
  | stopLoss
  | takeProfit
deriving DecidableEq, Repr

/-- Fields `handle_action` reads from `data["data"]`. -/
structure ActionData where
  action_id : Option PyVal
  config : Option Config
deriving DecidableEq, Repr

/-- Empty action-data dict (`data.get("data", {})` default). -/
def ActionData.empty : ActionData := ⟨Option.none, Option.none⟩

/-- Inbound message envelope as `handle_action` reads it. -/
structure Message where
  type : Option PyVal
  data : Option ActionData
deriving DecidableEq, Repr

/-- Body of `handle_action` inside its `try` (executor.py lines 155-180):
normalize the type, dispatch on the lower-cased `action_id` to one of the
three handlers, otherwise drop the message.  A `.upper()`/`.lower()` failure
on a non-string field escapes as `.error` for the outer `except`. -/
def actionBody (hl_client : Option Adapter) (msg : Message) :
    Except PyExn (List AdapterCall × Option HandlerId) :=
  match pyUpper (msg.type.getD (PyVal.str "")) with
  | .error e => .error e
  | .ok message_type =>
    if message_type = "ACTION" then
      match pyLower ((msg.data.getD ActionData.empty).action_id.getD (PyVal.str "")) with
      | .error e => .error e
      | .ok action_id =>
        if action_id = "execute_hyperliquid_perp_trade" then
          .ok ((handle_hyperliquid_perp_trade hl_client
                  ((msg.data.getD ActionData.empty).config.getD Config.empty)).1,
               some HandlerId.trade)
        else if action_id = "set_hyperliquid_perp_stop_loss" then
          .ok ((handle_set_hyperliquid_perp_stop_loss hl_client
                  ((msg.data.getD ActionData.empty).config.getD Config.empty)).1,
               some HandlerId.stopLoss)
        else if action_id = "set_hyperliquid_perp_take_profit" then
          .ok ((handle_set_hyperliquid_perp_take_profit hl_client
                  ((msg.data.getD ActionData.empty).config.getD Config.empty)).1,
               some HandlerId.takeProfit)
        else .ok ([], Option.none)
    else .ok ([], Option.none)

/-- The dispatcher `handle_action` (executor.py lines 148-183): the whole
body sits in a `try` whose `except Exception` logs and returns, so the
dispatcher never raises.  Result: the adapter calls made and the handler
invoked (if any). -/
def handle_action (hl_client : Option Adapter) (msg : Message) :
    List AdapterCall × Option HandlerId :=
  match actionBody hl_client msg with
  | .ok r => r
  | .error _ => ([], Option.none)

/-- Environment variables `_connect` reads (executor.py lines 86-87);
`Option.none` when unset. -/
structure Env where
  frac_ws_url : Option String
  frac_user_token : Option String
deriving DecidableEq, Repr

/-- Configuration errors `_connect` raises (the two `ValueError`s of
executor.py lines 89-93). -/
inductive ConfigError where
  | missingWsUrl
  | missingUserToken
deriving DecidableEq, Repr

/-- How far `_connect` gets before touching the network: either it raises a
configuration error, or it enters the `while self.running` connection loop
(executor.py line 107) with the assembled URL and token. -/
inductive ConnectOutcome where
  | configError (e : ConfigError)
  | connectLoop (full_url : String) (user_token : String)
deriving DecidableEq, Repr

/-- Python `s.rstrip('/')`. -/
def rstripSlash (s : String) : String :=
  String.mk ((s.toList.reverse.dropWhile (fun c => c = '/')).reverse)

/-- Prelude of `_connect` (executor.py lines 84-107): check the two
environment variables — `if not ws_url` is also true for an empty string —
then build `full_url` and enter the connection loop.  Both checks happen
before any connection attempt. -/
def connect_prelude (env : Env) : ConnectOutcome :=
  match env.frac_ws_url with
  | Option.none => .configError .missingWsUrl
  | some ws_url =>
    if ws_url = "" then .configError .missingWsUrl
    else
      match env.frac_user_token with
      | Option.none => .configError .missingUserToken
      | some user_token =>
        if user_token = "" then .configError .missingUserToken
        else .connectLoop (rstripSlash ws_url ++ "/ws/executor/") user_token

/-- What `start()` produces: whether an exception propagates to its caller,
and what the background connection task will do when scheduled. -/
structure StartResult where
  raisedToCaller : Option ConfigError
  backgroundTask : ConnectOutcome
deriving DecidableEq, Repr

/-- The method `start` (executor.py lines 361-368): it sets flags and calls
`asyncio.create_task(self._connect())`, which only schedules the coroutine
— no part of `_connect` runs inside `start`, so `start` itself raises
nothing to its caller; any `ValueError` from the missing-configuration
checks occurs later, inside the background task. -/
def start (env : Env) : StartResult :=
  { raisedToCaller := Option.none
    backgroundTask := connect_prelude env }

/-! ## Claims -/

/-- C1: for every trade config whose metadata carries `server_execution = true`,
`handle_hyperliquid_perp_trade` makes no adapter call (in particular it never
calls `execute_perp_trade`) and returns `false`, for every client and
regardless of the validity of the other fields. -/
theorem c1_server_execution_never_reaches_adapter
    (hl_client : Option Adapter) (config : Config)
    (h : config.metadata.server_execution = some (PyVal.bool true)) :
    handle_hyperliquid_perp_trade hl_client config = ([], false) := by
  cases hl_client with
  | none => rfl
  | some client =>
    simp only [handle_hyperliquid_perp_trade, tradeBody, h, Option.getD_some, truthy]
    cases pyFloat (config.position.size.getD (PyVal.num ⟨0, 0⟩)) with
    | error e => rfl
    | ok size =>
      cases pyUpper (config.position.side.getD (PyVal.str "")) with
      | error e => rfl
      | ok side =>
        simp only [false_and]
        split_ifs <;> simp_all

/-- C1 witness: a fully valid trade config with `server_execution = true` and
an authenticated, successful adapter still produces no call and `false`. -/
theorem c1_witness :
    (⟨⟨some (PyVal.str "BTC"), some (PyVal.str "0.01"), some (PyVal.str "BUY"),
        some (PyVal.bool false), Option.none⟩,
       ⟨some (PyVal.bool true)⟩⟩ : Config).metadata.server_execution
      = some (PyVal.bool true) ∧
    handle_hyperliquid_perp_trade
      (some ⟨true, Except.ok (), Except.ok (), Except.ok ()⟩)
      ⟨⟨some (PyVal.str "BTC"), some (PyVal.str "0.01"), some (PyVal.str "BUY"),
        some (PyVal.bool false), Option.none⟩,
       ⟨some (PyVal.bool true)⟩⟩ = ([], false) :=
  ⟨rfl, c1_server_execution_never_reaches_adapter _ _ rfl⟩

/-- C4: for every trade config in which the symbol is absent, the size is
absent or converts to zero (any zero representation: `"0"`, `"0.0"`, the
JSON numeral 0.0, `False`, ...), or the side is absent, the handler returns
`false` with no adapter call (the model's handlers are total functions:
every exception of the source is caught and never propagates). -/
theorem c4_trade_validation_refuses
    (hl_client : Option Adapter) (config : Config)
    (h : config.position.symbol = Option.none
        ∨ config.position.size = Option.none
        ∨ (∃ d : Dec, pyFloat (config.position.size.getD (PyVal.num ⟨0, 0⟩)) = Except.ok d
            ∧ d.isZero = true)
        ∨ config.position.side = Option.none) :
    handle_hyperliquid_perp_trade hl_client config = ([], false) := by
  cases hl_client with
  | none => rfl
  | some client =>
    simp only [handle_hyperliquid_perp_trade, tradeBody]
    rcases h with h | h | h | h
    · simp only [h, Option.getD_none, truthy]
      cases pyFloat (config.position.size.getD (PyVal.num ⟨0, 0⟩)) with
      | error e => rfl
      | ok size =>
        cases pyUpper (config.position.side.getD (PyVal.str "")) with
        | error e => rfl
        | ok side => rfl
    · simp only [h, Option.getD_none, pyFloat]
      cases pyUpper (config.position.side.getD (PyVal.str "")) with
      | error e => rfl
      | ok side =>
        split_ifs <;> simp_all [Dec.isZero]
    · obtain ⟨d, hd, hz⟩ := h
      simp only [hd]
      cases pyUpper (config.position.side.getD (PyVal.str "")) with
      | error e => rfl
      | ok side =>
        dsimp only
        split_ifs <;> simp_all
    · simp only [h, Option.getD_none, pyUpper, strUpper]
      cases pyFloat (config.position.size.getD (PyVal.num ⟨0, 0⟩)) with
      | error e => rfl
      | ok size =>
        split_ifs <;> simp_all

/-- C4 witness: a config whose size string `"0.0"` converts to the zero
decimal `⟨0, 1⟩` (not the representative `⟨0, 0⟩`) is refused, as is the
empty position. -/
theorem c4_witness :
    pyFloat ((⟨⟨some (PyVal.str "BTC"), some (PyVal.str "0.0"), some (PyVal.str "BUY"),
        Option.none, Option.none⟩, ⟨Option.none⟩⟩ : Config).position.size.getD
        (PyVal.num ⟨0, 0⟩)) = Except.ok ⟨0, 1⟩ ∧
    Dec.isZero ⟨0, 1⟩ = true ∧
    handle_hyperliquid_perp_trade
      (some ⟨true, Except.ok (), Except.ok (), Except.ok ()⟩)
      ⟨⟨some (PyVal.str "BTC"), some (PyVal.str "0.0"), some (PyVal.str "BUY"),
        Option.none, Option.none⟩, ⟨Option.none⟩⟩ = ([], false) ∧
    handle_hyperliquid_perp_trade
      (some ⟨true, Except.ok (), Except.ok (), Except.ok ()⟩) Config.empty = ([], false) :=
  ⟨by decide, by decide,
   c4_trade_validation_refuses
     (some ⟨true, Except.ok (), Except.ok (), Except.ok ()⟩)
     ⟨⟨some (PyVal.str "BTC"), some (PyVal.str "0.0"), some (PyVal.str "BUY"),
       Option.none, Option.none⟩, ⟨Option.none⟩⟩
     (Or.inr (Or.inr (Or.inl ⟨⟨0, 1⟩, by decide, by decide⟩))),
   c4_trade_validation_refuses
     (some ⟨true, Except.ok (), Except.ok (), Except.ok ()⟩) Config.empty (Or.inl rfl)⟩

/-- C5: for every stop-loss or take-profit config in which any of `symbol`,
`size`, `trigger_price` or `side` is absent, the corresponding adapter
method is never called and the handler returns `false`. -/
theorem c5_stop_take_validation_refuses
    (hl_client : Option Adapter) (config : Config)
    (h : config.position.symbol = Option.none
        ∨ config.position.size = Option.none
        ∨ config.position.trigger_price = Option.none
        ∨ config.position.side = Option.none) :
    handle_set_hyperliquid_perp_stop_loss hl_client config = ([], false) ∧
    handle_set_hyperliquid_perp_take_profit hl_client config = ([], false) := by
  cases hl_client with
  | none => exact ⟨rfl, rfl⟩
  | some client =>
    simp only [handle_set_hyperliquid_perp_stop_loss, stopLossBody,
      handle_set_hyperliquid_perp_take_profit, takeProfitBody]
    constructor <;>
    · cases hs : pyFloat (config.position.size.getD (PyVal.num ⟨0, 0⟩)) with
      | error e => rfl
      | ok size =>
        cases ht : pyFloat (config.position.trigger_price.getD (PyVal.num ⟨0, 0⟩)) with
        | error e => rfl
        | ok trigger_price =>
          cases hd : pyUpper (config.position.side.getD (PyVal.str "")) with
          | error e => rfl
          | ok side =>
            rcases h with h | h | h | h
            · simp only [h, Option.getD_none, truthy]
              rfl
            · rw [h] at hs
              simp only [Option.getD_none, pyFloat] at hs
              rw [← hs]
              simp [Dec.isZero]
            · rw [h] at ht
              simp only [Option.getD_none, pyFloat] at ht
              rw [← ht]
              simp [Dec.isZero]
            · rw [h] at hd
              simp only [Option.getD_none, pyUpper, strUpper] at hd
              rw [← hd]
              simp

/-- C5 witness: a stop/take-profit config with an absent trigger price is
refused by both handlers. -/
theorem c5_witness :
    ((⟨⟨some (PyVal.str "BTC"), some (PyVal.str "0.01"), some (PyVal.str "SELL"),
        Option.none, Option.none⟩, ⟨Option.none⟩⟩ : Config).position.trigger_price
      = Option.none) ∧
    handle_set_hyperliquid_perp_stop_loss
      (some ⟨true, Except.ok (), Except.ok (), Except.ok ()⟩)
      ⟨⟨some (PyVal.str "BTC"), some (PyVal.str "0.01"), some (PyVal.str "SELL"),
        Option.none, Option.none⟩, ⟨Option.none⟩⟩ = ([], false) ∧
    handle_set_hyperliquid_perp_take_profit
      (some ⟨true, Except.ok (), Except.ok (), Except.ok ()⟩)
      ⟨⟨some (PyVal.str "BTC"), some (PyVal.str "0.01"), some (PyVal.str "SELL"),
        Option.none, Option.none⟩, ⟨Option.none⟩⟩ = ([], false) :=
  ⟨rfl,
   (c5_stop_take_validation_refuses _ _ (Or.inr (Or.inr (Or.inl rfl)))).1,
   (c5_stop_take_validation_refuses _ _ (Or.inr (Or.inr (Or.inl rfl)))).2⟩

/-- Boolean the trade handler reports for an adapter call outcome: `True`
after a successful call, `False` when the call raised (inner `except` of
executor.py lines 270-273). -/
def adapterOk : Except PyExn Unit → Bool
  | .ok _ => true
  | .error _ => false

/-- C2: for every trade config with falsy `server_execution`, an
authenticated adapter, a present truthy symbol, a size converting to a
nonzero number and a side normalizing to a nonempty string, the handler
calls `execute_perp_trade` exactly once — with the side upper-cased, the
size as the converted number and `reduce_only` defaulting to `False` when
absent — and returns `true` exactly when the call succeeds. -/
theorem c2_trade_executes_exactly_once
    (client : Adapter) (config : Config)
    (hse : truthy (config.metadata.server_execution.getD (PyVal.bool false)) = false)
    (hauth : client.is_authenticated = true)
    (v : PyVal) (hsym : config.position.symbol = some v) (hv : truthy v = true)
    (q : Dec) (hq : pyFloat (config.position.size.getD (PyVal.num ⟨0, 0⟩)) = Except.ok q)
    (hq0 : q.isZero = false)
    (u : String) (hu : pyUpper (config.position.side.getD (PyVal.str "")) = Except.ok u)
    (hu0 : u ≠ "") :
    handle_hyperliquid_perp_trade (some client) config =
      ([AdapterCall.executePerpTrade v q u (config.position.reduce_only.getD (PyVal.bool false))],
        adapterOk client.execute_perp_trade_result) := by
  cases hres : client.execute_perp_trade_result with
  | ok r =>
    simp [handle_hyperliquid_perp_trade, tradeBody, hq, hu, hsym, hv, hse, hauth, hq0, hu0,
      hres, adapterOk]
  | error e =>
    simp [handle_hyperliquid_perp_trade, tradeBody, hq, hu, hsym, hv, hse, hauth, hq0, hu0,
      hres, adapterOk]

/-- C2 witness: the integration test's trade message (BTC, size "0.01",
side "BUY") against an authenticated adapter yields exactly one
`execute_perp_trade` call with the converted values, and `true`. -/
theorem c2_witness :
    pyFloat ((⟨⟨some (PyVal.str "BTC"), some (PyVal.str "0.01"), some (PyVal.str "BUY"),
        some (PyVal.bool false), Option.none⟩, ⟨Option.none⟩⟩ : Config).position.size.getD
        (PyVal.num ⟨0, 0⟩)) = Except.ok ⟨1, 2⟩ ∧
    handle_hyperliquid_perp_trade
      (some ⟨true, Except.ok (), Except.ok (), Except.ok ()⟩)
      ⟨⟨some (PyVal.str "BTC"), some (PyVal.str "0.01"), some (PyVal.str "BUY"),
        some (PyVal.bool false), Option.none⟩, ⟨Option.none⟩⟩ =
      ([AdapterCall.executePerpTrade (PyVal.str "BTC") ⟨1, 2⟩ "BUY" (PyVal.bool false)], true) :=
  have h := c2_trade_executes_exactly_once
    ⟨true, Except.ok (), Except.ok (), Except.ok ()⟩
    ⟨⟨some (PyVal.str "BTC"), some (PyVal.str "0.01"), some (PyVal.str "BUY"),
      some (PyVal.bool false), Option.none⟩, ⟨Option.none⟩⟩
    (by decide) rfl (PyVal.str "BTC") rfl (by decide)
    ⟨1, 2⟩ (by decide) (by decide) "BUY" (by decide) (by decide)
  ⟨by decide, h⟩

/-- C6: for every stop-loss or take-profit config passing validation
(truthy symbol, nonzero size, nonzero trigger price, nonempty normalized
side) and an existing adapter, the corresponding adapter method is always
called: the statement quantifies over every client — in particular
unauthenticated ones — and every metadata, so there is no
`server_execution` and no `is_authenticated` gating, unlike the trade
handler. -/
theorem c6_stop_take_always_execute
    (client : Adapter) (config : Config)
    (v : PyVal) (hsym : config.position.symbol = some v) (hv : truthy v = true)
    (q : Dec) (hq : pyFloat (config.position.size.getD (PyVal.num ⟨0, 0⟩)) = Except.ok q)
    (hq0 : q.isZero = false)
    (p : Dec) (hp : pyFloat (config.position.trigger_price.getD (PyVal.num ⟨0, 0⟩)) = Except.ok p)
    (hp0 : p.isZero = false)
    (u : String) (hu : pyUpper (config.position.side.getD (PyVal.str "")) = Except.ok u)
    (hu0 : u ≠ "") :
    (handle_set_hyperliquid_perp_stop_loss (some client) config).1
      = [AdapterCall.setStopLoss v q p u] ∧
    (handle_set_hyperliquid_perp_take_profit (some client) config).1
      = [AdapterCall.setTakeProfit v q p u] := by
  constructor
  · cases hres : client.set_stop_loss_result with
    | ok r =>
      simp [handle_set_hyperliquid_perp_stop_loss, stopLossBody, hq, hp, hu, hsym, hv, hq0,
        hp0, hu0, hres]
    | error e =>
      simp [handle_set_hyperliquid_perp_stop_loss, stopLossBody, hq, hp, hu, hsym, hv, hq0,
        hp0, hu0, hres]
  · cases hres : client.set_take_profit_result with
    | ok r =>
      simp [handle_set_hyperliquid_perp_take_profit, takeProfitBody, hq, hp, hu, hsym, hv, hq0,
        hp0, hu0, hres]
    | error e =>
      simp [handle_set_hyperliquid_perp_take_profit, takeProfitBody, hq, hp, hu, hsym, hv, hq0,
        hp0, hu0, hres]

/-- C6 witness: the integration test's stop/take-profit config (BTC, size
"0.01", trigger "45000", side "SELL") reaches the adapter even when the
client is unauthenticated and the metadata says `server_execution = true` —
the asymmetry the claim describes. -/
theorem c6_witness :
    truthy (PyVal.str "BTC") = true ∧
    (handle_set_hyperliquid_perp_stop_loss
      (some ⟨false, Except.ok (), Except.ok (), Except.ok ()⟩)
      ⟨⟨some (PyVal.str "BTC"), some (PyVal.str "0.01"), some (PyVal.str "SELL"),
        Option.none, some (PyVal.str "45000")⟩, ⟨some (PyVal.bool true)⟩⟩).1
      = [AdapterCall.setStopLoss (PyVal.str "BTC") ⟨1, 2⟩ ⟨45000, 0⟩ "SELL"] ∧
    (handle_set_hyperliquid_perp_take_profit
      (some ⟨false, Except.ok (), Except.ok (), Except.ok ()⟩)
      ⟨⟨some (PyVal.str "BTC"), some (PyVal.str "0.01"), some (PyVal.str "SELL"),
        Option.none, some (PyVal.str "45000")⟩, ⟨some (PyVal.bool true)⟩⟩).1
      = [AdapterCall.setTakeProfit (PyVal.str "BTC") ⟨1, 2⟩ ⟨45000, 0⟩ "SELL"] :=
  have h := c6_stop_take_always_execute
    ⟨false, Except.ok (), Except.ok (), Except.ok ()⟩
    ⟨⟨some (PyVal.str "BTC"), some (PyVal.str "0.01"), some (PyVal.str "SELL"),
      Option.none, some (PyVal.str "45000")⟩, ⟨some (PyVal.bool true)⟩⟩
    (PyVal.str "BTC") rfl (by decide)
    ⟨1, 2⟩ (by decide) (by decide) ⟨45000, 0⟩ (by decide) (by decide)
    "SELL" (by decide) (by decide)
  ⟨by decide, h.1, h.2⟩

/-- Case-normalized message type, as `handle_action` computes it at
executor.py line 160 (`Option.none` when the field is not a string, so that
`.upper()` raises). -/
def normalizedType (msg : Message) : Option String :=
  (pyUpper (msg.type.getD (PyVal.str ""))).toOption

/-- Case-normalized action id, as `handle_action` computes it at
executor.py line 164. -/
def normalizedActionId (msg : Message) : Option String :=
  (pyLower ((msg.data.getD ActionData.empty).action_id.getD (PyVal.str ""))).toOption

/-- C7: a message whose type does not normalize to `"ACTION"` invokes no
handler, and an `"ACTION"` message whose action id does not normalize to
one of the three known identifiers is dropped without invoking any handler
and without error — in both cases no adapter call is made. -/
theorem c7_dispatch_filters_unknown
    (hl_client : Option Adapter) (msg : Message) :
    (normalizedType msg ≠ some "ACTION" →
        handle_action hl_client msg = ([], Option.none)) ∧
    (normalizedType msg = some "ACTION" →
        normalizedActionId msg ≠ some "execute_hyperliquid_perp_trade" →
        normalizedActionId msg ≠ some "set_hyperliquid_perp_stop_loss" →
        normalizedActionId msg ≠ some "set_hyperliquid_perp_take_profit" →
        handle_action hl_client msg = ([], Option.none)) := by
  constructor
  · intro hne
    unfold handle_action actionBody
    cases ht : pyUpper (msg.type.getD (PyVal.str "")) with
    | error e => rfl
    | ok t =>
      have htne : ¬ t = "ACTION" := by
        intro hcontra
        exact hne (by simp [normalizedType, ht, hcontra, Except.toOption])
      simp [htne]
  · intro hty h1 h2 h3
    unfold handle_action actionBody
    cases ht : pyUpper (msg.type.getD (PyVal.str "")) with
    | error e =>
      simp [normalizedType, ht, Except.toOption] at hty
    | ok t =>
      have htv : t = "ACTION" := by
        simpa [normalizedType, ht, Except.toOption] using hty
      subst htv
      cases ha : pyLower ((msg.data.getD ActionData.empty).action_id.getD (PyVal.str "")) with
      | error e => simp
      | ok a =>
        have ha1 : ¬ a = "execute_hyperliquid_perp_trade" := by
          intro hcontra
          exact h1 (by simp [normalizedActionId, ha, hcontra, Except.toOption])
        have ha2 : ¬ a = "set_hyperliquid_perp_stop_loss" := by
          intro hcontra
          exact h2 (by simp [normalizedActionId, ha, hcontra, Except.toOption])
        have ha3 : ¬ a = "set_hyperliquid_perp_take_profit" := by
          intro hcontra
          exact h3 (by simp [normalizedActionId, ha, hcontra, Except.toOption])
        simp [ha1, ha2, ha3]

/-- C7 witness: a "PING"-typed frame invokes nothing, and an "ACTION"
frame carrying an unknown action id is dropped, both with no adapter call. -/
theorem c7_witness :
    normalizedType ⟨some (PyVal.str "ping"), Option.none⟩ ≠ some "ACTION" ∧
    handle_action Option.none ⟨some (PyVal.str "ping"), Option.none⟩ = ([], Option.none) ∧
    handle_action (some ⟨true, Except.ok (), Except.ok (), Except.ok ()⟩)
      ⟨some (PyVal.str "action"), some ⟨some (PyVal.str "unknown_action"), Option.none⟩⟩
      = ([], Option.none) :=
  ⟨by decide,
   (c7_dispatch_filters_unknown Option.none ⟨some (PyVal.str "ping"), Option.none⟩).1
     (by decide),
   (c7_dispatch_filters_unknown (some ⟨true, Except.ok (), Except.ok (), Except.ok ()⟩)
      ⟨some (PyVal.str "action"), some ⟨some (PyVal.str "unknown_action"), Option.none⟩⟩).2
     (by decide) (by decide) (by decide) (by decide)⟩

/-- C8: the dispatcher never lets an exception propagate.  The model's
`handle_action` is a total function whose outer catch maps every escaped
internal exception to a silent drop, and each handler converts an exception
thrown by its adapter call into a `false` result instead of propagating
it. -/
theorem c8_dispatch_never_raises :
    (∀ (hl_client : Option Adapter) (msg : Message) (e : PyExn),
        actionBody hl_client msg = Except.error e →
        handle_action hl_client msg = ([], Option.none)) ∧
    (∀ (client : Adapter) (config : Config) (e : PyExn),
        client.execute_perp_trade_result = Except.error e →
        (handle_hyperliquid_perp_trade (some client) config).2 = false) ∧
    (∀ (client : Adapter) (config : Config) (e : PyExn),
        client.set_stop_loss_result = Except.error e →
        (handle_set_hyperliquid_perp_stop_loss (some client) config).2 = false) ∧
    (∀ (client : Adapter) (config : Config) (e : PyExn),
        client.set_take_profit_result = Except.error e →
        (handle_set_hyperliquid_perp_take_profit (some client) config).2 = false) := by
  refine ⟨?_, ?_, ?_, ?_⟩
  · intro hl_client msg e h
    simp [handle_action, h]
  · intro client config e h
    simp only [handle_hyperliquid_perp_trade, tradeBody, h]
    cases pyFloat (config.position.size.getD (PyVal.num ⟨0, 0⟩)) with
    | error e2 => rfl
    | ok size =>
      cases pyUpper (config.position.side.getD (PyVal.str "")) with
      | error e2 => rfl
      | ok side =>
        dsimp only
        split_ifs <;> rfl
  · intro client config e h
    simp only [handle_set_hyperliquid_perp_stop_loss, stopLossBody, h]
    cases pyFloat (config.position.size.getD (PyVal.num ⟨0, 0⟩)) with
    | error e2 => rfl
    | ok size =>
      cases pyFloat (config.position.trigger_price.getD (PyVal.num ⟨0, 0⟩)) with
      | error e2 => rfl
      | ok trigger_price =>
        cases pyUpper (config.position.side.getD (PyVal.str "")) with
        | error e2 => rfl
        | ok side =>
        dsimp only
        split_ifs <;> rfl
  · intro client config e h
    simp only [handle_set_hyperliquid_perp_take_profit, takeProfitBody, h]
    cases pyFloat (config.position.size.getD (PyVal.num ⟨0, 0⟩)) with
    | error e2 => rfl
    | ok size =>
      cases pyFloat (config.position.trigger_price.getD (PyVal.num ⟨0, 0⟩)) with
      | error e2 => rfl
      | ok trigger_price =>
        cases pyUpper (config.position.side.getD (PyVal.str "")) with
        | error e2 => rfl
        | ok side =>
        dsimp only
        split_ifs <;> rfl

/-- C8 witness: a frame with a non-string type makes the body raise and the
dispatcher drop it; a throwing adapter makes each handler report `false`
(for the trade handler even though the call was made). -/
theorem c8_witness :
    actionBody Option.none ⟨some (PyVal.num ⟨3, 0⟩), Option.none⟩
      = Except.error PyExn.attributeError ∧
    handle_action Option.none ⟨some (PyVal.num ⟨3, 0⟩), Option.none⟩ = ([], Option.none) ∧
    (handle_hyperliquid_perp_trade
      (some ⟨true, Except.error PyExn.adapterFailure, Except.ok (), Except.ok ()⟩)
      ⟨⟨some (PyVal.str "BTC"), some (PyVal.str "0.01"), some (PyVal.str "BUY"),
        Option.none, Option.none⟩, ⟨Option.none⟩⟩).2 = false ∧
    (handle_set_hyperliquid_perp_stop_loss
      (some ⟨true, Except.ok (), Except.error PyExn.adapterFailure, Except.ok ()⟩)
      ⟨⟨some (PyVal.str "BTC"), some (PyVal.str "0.01"), some (PyVal.str "SELL"),
        Option.none, some (PyVal.str "45000")⟩, ⟨Option.none⟩⟩).2 = false ∧
    (handle_set_hyperliquid_perp_take_profit
      (some ⟨true, Except.ok (), Except.ok (), Except.error PyExn.adapterFailure⟩)
      ⟨⟨some (PyVal.str "BTC"), some (PyVal.str "0.01"), some (PyVal.str "SELL"),
        Option.none, some (PyVal.str "55000")⟩, ⟨Option.none⟩⟩).2 = false :=
  ⟨by decide,
   c8_dispatch_never_raises.1 Option.none ⟨some (PyVal.num ⟨3, 0⟩), Option.none⟩
     PyExn.attributeError (by decide),
   c8_dispatch_never_raises.2.1
     ⟨true, Except.error PyExn.adapterFailure, Except.ok (), Except.ok ()⟩
     ⟨⟨some (PyVal.str "BTC"), some (PyVal.str "0.01"), some (PyVal.str "BUY"),
       Option.none, Option.none⟩, ⟨Option.none⟩⟩
     PyExn.adapterFailure rfl,
   c8_dispatch_never_raises.2.2.1
     ⟨true, Except.ok (), Except.error PyExn.adapterFailure, Except.ok ()⟩
     ⟨⟨some (PyVal.str "BTC"), some (PyVal.str "0.01"), some (PyVal.str "SELL"),
       Option.none, some (PyVal.str "45000")⟩, ⟨Option.none⟩⟩
     PyExn.adapterFailure rfl,
   c8_dispatch_never_raises.2.2.2
     ⟨true, Except.ok (), Except.ok (), Except.error PyExn.adapterFailure⟩
     ⟨⟨some (PyVal.str "BTC"), some (PyVal.str "0.01"), some (PyVal.str "SELL"),
       Option.none, some (PyVal.str "55000")⟩, ⟨Option.none⟩⟩
     PyExn.adapterFailure rfl⟩

/-- C9 counterexample: a trade config with size `"-0.01"` passes the
handler's validation (which only rejects zero) and reaches the adapter
with a negative size argument, so the claimed strict positivity of the
forwarded size fails at this input. -/
theorem c9_counterexample_negative_size :
    (handle_hyperliquid_perp_trade
      (some ⟨true, Except.ok (), Except.ok (), Except.ok ()⟩)
      ⟨⟨some (PyVal.str "BTC"), some (PyVal.str "-0.01"), some (PyVal.str "BUY"),
        Option.none, Option.none⟩, ⟨Option.none⟩⟩).1
      = [AdapterCall.executePerpTrade (PyVal.str "BTC") ⟨-1, 2⟩ "BUY" (PyVal.bool false)] ∧
    ¬ (0 < (Dec.mk (-1) 2).toRat) := by
  constructor
  · decide
  · norm_num [Dec.toRat]

/-- C9 amended: whenever the trade handler calls `execute_perp_trade`, the
size argument is nonzero — the validation rejects a zero size, but it does
not enforce positivity, and a negative size is forwarded to the adapter
unchanged. -/
theorem c9_amended_size_nonzero
    (hl_client : Option Adapter) (config : Config)
    (v : PyVal) (q : Dec) (u : String) (r : PyVal)
    (h : AdapterCall.executePerpTrade v q u r
        ∈ (handle_hyperliquid_perp_trade hl_client config).1) :
    q.toRat ≠ 0 := by
  cases hl_client with
  | none => exact absurd h (List.not_mem_nil _)
  | some client =>
    simp only [handle_hyperliquid_perp_trade, tradeBody] at h
    revert h
    cases pyFloat (config.position.size.getD (PyVal.num ⟨0, 0⟩)) with
    | error e => intro h; exact absurd h (List.not_mem_nil _)
    | ok size =>
      cases pyUpper (config.position.side.getD (PyVal.str "")) with
      | error e => intro h; exact absurd h (List.not_mem_nil _)
      | ok side =>
        dsimp only
        split_ifs with h1 h2 h3 h4
        · intro h; exact absurd h (List.not_mem_nil _)
        · intro h; exact absurd h (List.not_mem_nil _)
        · intro h; exact absurd h (List.not_mem_nil _)
        · cases client.execute_perp_trade_result with
          | ok r2 =>
            intro h
            rw [List.mem_singleton] at h
            injection h with hv hq hu hr
            rw [hq]
            exact fun hz => h2 ((Dec.isZero_iff_toRat size).mpr hz)
          | error e =>
            intro h
            rw [List.mem_singleton] at h
            injection h with hv hq hu hr
            rw [hq]
            exact fun hz => h2 ((Dec.isZero_iff_toRat size).mpr hz)
        · intro h; exact absurd h (List.not_mem_nil _)

/-- C9 amended witness: the test's valid trade call carries the nonzero
size 1/100. -/
theorem c9_amended_witness :
    AdapterCall.executePerpTrade (PyVal.str "BTC") ⟨1, 2⟩ "BUY" (PyVal.bool false)
      ∈ (handle_hyperliquid_perp_trade
          (some ⟨true, Except.ok (), Except.ok (), Except.ok ()⟩)
          ⟨⟨some (PyVal.str "BTC"), some (PyVal.str "0.01"), some (PyVal.str "BUY"),
            Option.none, Option.none⟩, ⟨Option.none⟩⟩).1 ∧
    (Dec.mk 1 2).toRat ≠ 0 :=
  ⟨by decide,
   c9_amended_size_nonzero
     (some ⟨true, Except.ok (), Except.ok (), Except.ok ()⟩)
     ⟨⟨some (PyVal.str "BTC"), some (PyVal.str "0.01"), some (PyVal.str "BUY"),
       Option.none, Option.none⟩, ⟨Option.none⟩⟩
     (PyVal.str "BTC") ⟨1, 2⟩ "BUY" (PyVal.bool false) (by decide)⟩

/-- Inversion for the trade handler's trace: a recorded `executePerpTrade`
call carries exactly the `float`-converted size field. -/
theorem trade_call_size_eq
    (hl_client : Option Adapter) (config : Config)
    (v : PyVal) (q : Dec) (u : String) (r : PyVal)
    (h : AdapterCall.executePerpTrade v q u r
        ∈ (handle_hyperliquid_perp_trade hl_client config).1) :
    pyFloat (config.position.size.getD (PyVal.num ⟨0, 0⟩)) = Except.ok q := by
  cases hl_client with
  | none => exact absurd h (List.not_mem_nil _)
  | some client =>
    simp only [handle_hyperliquid_perp_trade, tradeBody] at h
    revert h
    cases hf : pyFloat (config.position.size.getD (PyVal.num ⟨0, 0⟩)) with
    | error e => intro h; exact absurd h (List.not_mem_nil _)
    | ok size =>
      cases pyUpper (config.position.side.getD (PyVal.str "")) with
      | error e => intro h; exact absurd h (List.not_mem_nil _)
      | ok side =>
        dsimp only
        split_ifs
        · intro h; exact absurd h (List.not_mem_nil _)
        · intro h; exact absurd h (List.not_mem_nil _)
        · intro h; exact absurd h (List.not_mem_nil _)
        · cases client.execute_perp_trade_result with
          | ok r2 =>
            intro h
            rw [List.mem_singleton] at h
            injection h with hv hq hu hr
            rw [hq]
          | error e =>
            intro h
            rw [List.mem_singleton] at h
            injection h with hv hq hu hr
            rw [hq]
        · intro h; exact absurd h (List.not_mem_nil _)

/-- Inversion for the stop-loss handler's trace: a recorded `setStopLoss`
call carries exactly the `float`-converted size and trigger-price fields. -/
theorem stop_loss_call_args_eq
    (hl_client : Option Adapter) (config : Config)
    (v : PyVal) (q p : Dec) (u : String)
    (h : AdapterCall.setStopLoss v q p u
        ∈ (handle_set_hyperliquid_perp_stop_loss hl_client config).1) :
    pyFloat (config.position.size.getD (PyVal.num ⟨0, 0⟩)) = Except.ok q ∧
    pyFloat (config.position.trigger_price.getD (PyVal.num ⟨0, 0⟩)) = Except.ok p := by
  cases hl_client with
  | none => exact absurd h (List.not_mem_nil _)
  | some client =>
    simp only [handle_set_hyperliquid_perp_stop_loss, stopLossBody] at h
    revert h
    cases hf : pyFloat (config.position.size.getD (PyVal.num ⟨0, 0⟩)) with
    | error e => intro h; exact absurd h (List.not_mem_nil _)
    | ok size =>
      cases hft : pyFloat (config.position.trigger_price.getD (PyVal.num ⟨0, 0⟩)) with
      | error e => intro h; exact absurd h (List.not_mem_nil _)
      | ok trigger_price =>
        cases pyUpper (config.position.side.getD (PyVal.str "")) with
        | error e => intro h; exact absurd h (List.not_mem_nil _)
        | ok side =>
          dsimp only
          split_ifs
          · intro h; exact absurd h (List.not_mem_nil _)
          · cases client.set_stop_loss_result with
            | ok r2 =>
              intro h
              rw [List.mem_singleton] at h
              injection h with hv hq hp hu
              exact ⟨by rw [hq], by rw [hp]⟩
            | error e =>
              intro h
              rw [List.mem_singleton] at h
              injection h with hv hq hp hu
              exact ⟨by rw [hq], by rw [hp]⟩

/-- Inversion for the take-profit handler's trace: a recorded
`setTakeProfit` call carries exactly the `float`-converted size and
trigger-price fields. -/
theorem take_profit_call_args_eq
    (hl_client : Option Adapter) (config : Config)
    (v : PyVal) (q p : Dec) (u : String)
    (h : AdapterCall.setTakeProfit v q p u
        ∈ (handle_set_hyperliquid_perp_take_profit hl_client config).1) :
    pyFloat (config.position.size.getD (PyVal.num ⟨0, 0⟩)) = Except.ok q ∧
    pyFloat (config.position.trigger_price.getD (PyVal.num ⟨0, 0⟩)) = Except.ok p := by
  cases hl_client with
  | none => exact absurd h (List.not_mem_nil _)
  | some client =>
    simp only [handle_set_hyperliquid_perp_take_profit, takeProfitBody] at h
    revert h
    cases hf : pyFloat (config.position.size.getD (PyVal.num ⟨0, 0⟩)) with
    | error e => intro h; exact absurd h (List.not_mem_nil _)
    | ok size =>
      cases hft : pyFloat (config.position.trigger_price.getD (PyVal.num ⟨0, 0⟩)) with
      | error e => intro h; exact absurd h (List.not_mem_nil _)
      | ok trigger_price =>
        cases pyUpper (config.position.side.getD (PyVal.str "")) with
        | error e => intro h; exact absurd h (List.not_mem_nil _)
        | ok side =>
          dsimp only
          split_ifs
          · intro h; exact absurd h (List.not_mem_nil _)
          · cases client.set_take_profit_result with
            | ok r2 =>
              intro h
              rw [List.mem_singleton] at h
              injection h with hv hq hp hu
              exact ⟨by rw [hq], by rw [hp]⟩
            | error e =>
              intro h
              rw [List.mem_singleton] at h
              injection h with hv hq hp hu
              exact ⟨by rw [hq], by rw [hp]⟩

/-- C10: for every config whose size (resp. trigger price) field is a
decimal-numeral string, the handlers accept it — `float(...)` succeeds with
the number the string denotes — and every adapter call any handler makes on
that config carries that number as its size (resp. trigger price) argument,
never the original string. -/
theorem c10_string_numerals_converted :
    (∀ (hl_client : Option Adapter) (config : Config) (s : String) (d : Dec),
        config.position.size = some (PyVal.str s) → parseDecimal s = some d →
        pyFloat (config.position.size.getD (PyVal.num ⟨0, 0⟩)) = Except.ok d ∧
        (∀ (v : PyVal) (q : Dec) (u : String) (r : PyVal),
            AdapterCall.executePerpTrade v q u r
              ∈ (handle_hyperliquid_perp_trade hl_client config).1 → q = d) ∧
        (∀ (v : PyVal) (q p : Dec) (u : String),
            AdapterCall.setStopLoss v q p u
              ∈ (handle_set_hyperliquid_perp_stop_loss hl_client config).1 → q = d) ∧
        (∀ (v : PyVal) (q p : Dec) (u : String),
            AdapterCall.setTakeProfit v q p u
              ∈ (handle_set_hyperliquid_perp_take_profit hl_client config).1 → q = d)) ∧
    (∀ (hl_client : Option Adapter) (config : Config) (s : String) (d : Dec),
        config.position.trigger_price = some (PyVal.str s) → parseDecimal s = some d →
        pyFloat (config.position.trigger_price.getD (PyVal.num ⟨0, 0⟩)) = Except.ok d ∧
        (∀ (v : PyVal) (q p : Dec) (u : String),
            AdapterCall.setStopLoss v q p u
              ∈ (handle_set_hyperliquid_perp_stop_loss hl_client config).1 → p = d) ∧
        (∀ (v : PyVal) (q p : Dec) (u : String),
            AdapterCall.setTakeProfit v q p u
              ∈ (handle_set_hyperliquid_perp_take_profit hl_client config).1 → p = d)) := by
  constructor
  · intro hl_client config s d hs hd
    have hpf : pyFloat (config.position.size.getD (PyVal.num ⟨0, 0⟩)) = Except.ok d := by
      simp [hs, pyFloat, hd]
    refine ⟨hpf, ?_, ?_, ?_⟩
    · intro v q u r h
      have h2 := trade_call_size_eq hl_client config v q u r h
      rw [hpf] at h2
      exact (Except.ok.inj h2).symm
    · intro v q p u h
      have h2 := (stop_loss_call_args_eq hl_client config v q p u h).1
      rw [hpf] at h2
      exact (Except.ok.inj h2).symm
    · intro v q p u h
      have h2 := (take_profit_call_args_eq hl_client config v q p u h).1
      rw [hpf] at h2
      exact (Except.ok.inj h2).symm
  · intro hl_client config s d hs hd
    have hpf : pyFloat (config.position.trigger_price.getD (PyVal.num ⟨0, 0⟩))
        = Except.ok d := by
      simp [hs, pyFloat, hd]
    refine ⟨hpf, ?_, ?_⟩
    · intro v q p u h
      have h2 := (stop_loss_call_args_eq hl_client config v q p u h).2
      rw [hpf] at h2
      exact (Except.ok.inj h2).symm
    · intro v q p u h
      have h2 := (take_profit_call_args_eq hl_client config v q p u h).2
      rw [hpf] at h2
      exact (Except.ok.inj h2).symm

/-- C10 witness: on the integration test's configs, the size string
`"0.01"` converts to 1/100 and the trigger-price string `"45000"` to
45000. -/
theorem c10_witness :
    parseDecimal "0.01" = some ⟨1, 2⟩ ∧
    pyFloat ((⟨⟨some (PyVal.str "BTC"), some (PyVal.str "0.01"), some (PyVal.str "BUY"),
        some (PyVal.bool false), Option.none⟩, ⟨Option.none⟩⟩ : Config).position.size.getD
        (PyVal.num ⟨0, 0⟩)) = Except.ok ⟨1, 2⟩ ∧
    parseDecimal "45000" = some ⟨45000, 0⟩ ∧
    pyFloat ((⟨⟨some (PyVal.str "BTC"), some (PyVal.str "0.01"), some (PyVal.str "SELL"),
        some (PyVal.bool true), some (PyVal.str "45000")⟩,
        ⟨Option.none⟩⟩ : Config).position.trigger_price.getD (PyVal.num ⟨0, 0⟩))
      = Except.ok ⟨45000, 0⟩ :=
  ⟨by decide,
   (c10_string_numerals_converted.1
      (some ⟨true, Except.ok (), Except.ok (), Except.ok ()⟩)
      ⟨⟨some (PyVal.str "BTC"), some (PyVal.str "0.01"), some (PyVal.str "BUY"),
        some (PyVal.bool false), Option.none⟩, ⟨Option.none⟩⟩
      "0.01" ⟨1, 2⟩ rfl (by decide)).1,
   by decide,
   (c10_string_numerals_converted.2
      (some ⟨true, Except.ok (), Except.ok (), Except.ok ()⟩)
      ⟨⟨some (PyVal.str "BTC"), some (PyVal.str "0.01"), some (PyVal.str "SELL"),
        some (PyVal.bool true), some (PyVal.str "45000")⟩, ⟨Option.none⟩⟩
      "45000" ⟨45000, 0⟩ rfl (by decide)).1⟩

/-- C3 counterexample: with the endpoint URL unset (and a token present),
the configuration error is raised inside the background connection task
before any connection attempt — yet `start` raises nothing to its caller,
because it only schedules `_connect` as a background task.  The claim's
"surfaced to the caller of `start()`" part fails at this input. -/
theorem c3_counterexample_not_surfaced :
    (start ⟨Option.none, some "token123"⟩).backgroundTask
      = ConnectOutcome.configError ConfigError.missingWsUrl ∧
    (start ⟨Option.none, some "token123"⟩).raisedToCaller = Option.none :=
  ⟨rfl, rfl⟩

/-- C3 amended: when the endpoint URL or the bearer token is absent (or
empty), a fatal configuration error is raised before any connection
attempt; the error occurs inside the background connection task that
`start` launches, and `start` itself completes without raising anything to
its caller. -/
theorem c3_amended_config_error_in_task
    (env : Env)
    (h : env.frac_ws_url = Option.none ∨ env.frac_ws_url = some ""
        ∨ env.frac_user_token = Option.none ∨ env.frac_user_token = some "") :
    (∃ e, (start env).backgroundTask = ConnectOutcome.configError e) ∧
    (start env).raisedToCaller = Option.none := by
  refine ⟨?_, rfl⟩
  rcases h with h | h | h | h
  · exact ⟨ConfigError.missingWsUrl, by simp [start, connect_prelude, h]⟩
  · exact ⟨ConfigError.missingWsUrl, by simp [start, connect_prelude, h]⟩
  · cases hu : env.frac_ws_url with
    | none => exact ⟨ConfigError.missingWsUrl, by simp [start, connect_prelude, hu]⟩
    | some u =>
      by_cases he : u = ""
      · exact ⟨ConfigError.missingWsUrl, by simp [start, connect_prelude, hu, he]⟩
      · exact ⟨ConfigError.missingUserToken, by simp [start, connect_prelude, hu, he, h]⟩
  · cases hu : env.frac_ws_url with
    | none => exact ⟨ConfigError.missingWsUrl, by simp [start, connect_prelude, hu]⟩
    | some u =>
      by_cases he : u = ""
      · exact ⟨ConfigError.missingWsUrl, by simp [start, connect_prelude, hu, he]⟩
      · exact ⟨ConfigError.missingUserToken, by simp [start, connect_prelude, hu, he, h]⟩

/-- C3 amended witness: a concrete environment with the URL unset. -/
theorem c3_amended_witness :
    ((⟨Option.none, some "tok"⟩ : Env).frac_ws_url = Option.none
        ∨ (⟨Option.none, some "tok"⟩ : Env).frac_ws_url = some ""
        ∨ (⟨Option.none, some "tok"⟩ : Env).frac_user_token = Option.none
        ∨ (⟨Option.none, some "tok"⟩ : Env).frac_user_token = some "") ∧
    ((∃ e, (start ⟨Option.none, some "tok"⟩).backgroundTask
        = ConnectOutcome.configError e) ∧
      (start ⟨Option.none, some "tok"⟩).raisedToCaller = Option.none) :=
  ⟨Or.inl rfl, c3_amended_config_error_in_task ⟨Option.none, some "tok"⟩ (Or.inl rfl)⟩

end FractradeExec
